import Mathlib

/-!
Shallow embedding of the Central-Monitoramento check-evaluate-alert pipeline:
`monitor.py` (probe executor), `main.py` (state-transition detector and
orchestrator), `notifications.py` (dispatcher and message rendering) and
`reports.py` (uptime statistics), with theorems settling the spec claims.
Network and clock effects are passed in explicitly: the outcome of each HTTP
attempt is an oracle `att : Nat → AttemptOutcome`, and exceptions of the
Python source become data (`Except` values or the `transportError`
constructor), mirroring the `try/except` blocks that catch them.
-/

namespace Central

/-- Outcome of one `session.get` attempt in `SiteMonitor.check_site`
(monitor.py, lines 42-77): either a `requests.exceptions.RequestException`
with its message, or a received HTTP response with its status code, the
measured elapsed wall-clock time in milliseconds, and the value the
`_check_ssl_expiry` probe would report at that moment (`none` stands both
for a non-HTTPS URL and for any error in that sub-step, which the source
swallows and turns into `None`). -/
inductive AttemptOutcome where
  | transportError (msg : String)
  | response (status : Nat) (elapsedMs : Rat) (sslDays : Option Int)
  deriving Repr, DecidableEq

/-- One entry of `sites.json` as consumed by `check_site`: `expected_status`
and `max_response_time` are optional with defaults applied at the use site by
`dict.get` (monitor.py lines 56-57), `check_ssl` defaults to false
(line 65). The bearer-auth field only alters outgoing headers and is not
modelled. -/
structure SiteConfig where
  name : String
  url : String
  expected_status : Option Nat
  max_response_time : Option Rat
  check_ssl : Bool
  deriving Repr, DecidableEq

/-- The result dict built by `check_site` (monitor.py lines 17-26) and also
the row shape stored by `MonitoringDB.log_check`. `timestamp` stands for the
`datetime.now()` string already formatted as `_format_message` prints it. -/
structure CheckResult where
  name : String
  url : String
  is_up : Bool
  status_code : Option Nat
  response_time : Option Rat
  ssl_days_remaining : Option Int
  error_message : Option String
  timestamp : String
  deriving Repr, DecidableEq

/-- Python's round-half-to-even on an exact rational, used to model the
`:.0f` format and `round(x, 2)`. -/
def roundHalfEven (q : Rat) : Int :=
  let f : Int := q.floor
  let r : Rat := q - (f : Rat)
  if r < 1/2 then f
  else if 1/2 < r then f + 1
  else if f % 2 = 0 then f else f + 1

/-- Python's .0f format: the value rounded half-to-even to an integer. -/
def fmt0 (q : Rat) : String := toString (roundHalfEven q)

/-- Python `round(x, 2)` on an exact rational. -/
def round2 (q : Rat) : Rat := (roundHalfEven (q * 100) : Rat) / 100

/-- The dict initialised at the top of `check_site` (monitor.py
lines 17-26). -/
def initResult (cfg : SiteConfig) (now : String) : CheckResult :=
  { name := cfg.name
    url := cfg.url
    is_up := false
    status_code := none
    response_time := none
    ssl_days_remaining := none
    error_message := none
    timestamp := now }

/-- The SSL-expiry annotation string of monitor.py lines 71-73. -/
def sslExpiraMsg (d : Int) : String := "SSL expira em " ++ toString d ++ " dias"

/-- The SSL block of `check_site` (monitor.py lines 64-73): when
`check_ssl` is set, store the probed days-remaining; when it is a value
below 30, replace the error message if the site is up, else append to it
(the source does `+=` on a string that is always set in that branch). -/
def sslAnnotate (cfg : SiteConfig) (sslDays : Option Int) (r : CheckResult) :
    CheckResult :=
  if cfg.check_ssl then
    let r1 := { r with ssl_days_remaining := sslDays }
    match sslDays with
    | some d =>
      if d < 30 then
        if r1.is_up then { r1 with error_message := some (sslExpiraMsg d) }
        else
          { r1 with
            error_message :=
              some (r1.error_message.getD "" ++ ", " ++ sslExpiraMsg d) }
      else r1
    | none => r1
  else r

/-- The body run when an attempt receives a response (monitor.py
lines 48-73): record time and status code, classify up/down against the
configured expectations, then run the SSL block. -/
def handleResponse (cfg : SiteConfig) (status : Nat) (elapsed : Rat)
    (sslDays : Option Int) (r : CheckResult) : CheckResult :=
  let r1 := { r with response_time := some elapsed, status_code := some status }
  let expected := cfg.expected_status.getD 200
  let maxRt := cfg.max_response_time.getD 5000
  let r2 :=
    if status = expected ∧ elapsed ≤ maxRt then { r1 with is_up := true }
    else
      { r1 with
        error_message :=
          some ("Status: " ++ toString status ++ ", Tempo: " ++ fmt0 elapsed
            ++ "ms") }
  sslAnnotate cfg sslDays r2

/-- The retry loop of `check_site` (monitor.py lines 28-83): `i` is the
index of the next attempt in the oracle, `fuel` the remaining iterations of
`range(retry_count)`. Returns the result together with the number of
attempts actually issued; a received response breaks the loop, a transport
error records its message and continues. -/
def checkLoop (cfg : SiteConfig) (att : Nat → AttemptOutcome) :
    Nat → Nat → CheckResult → CheckResult × Nat
  | _, 0, r => (r, 0)
  | i, fuel + 1, r =>
    match att i with
    | AttemptOutcome.response status elapsed sslDays =>
      (handleResponse cfg status elapsed sslDays r, 1)
    | AttemptOutcome.transportError msg =>
      let r1 := { r with error_message := some msg }
      let rest := checkLoop cfg att (i + 1) fuel r1
      (rest.1, rest.2 + 1)

/-- Model of `SiteMonitor.check_site` (monitor.py lines 15-84), with the transport
modelled by the oracle `att` and the wall clock by `now`. The second
component counts the attempts issued; the function is total: every
`RequestException` is caught by the source's `except` and becomes data
here, so no failure escapes as an exception. -/
def check_site (cfg : SiteConfig) (retry_count : Nat)
    (att : Nat → AttemptOutcome) (now : String) : CheckResult × Nat :=
  checkLoop cfg att 0 retry_count (initResult cfg now)

/-- The three alert kinds that `MonitoringSystem.check_state_change` can
emit (main.py lines 85-112). -/
inductive AlertType where
  | down
  | recovered
  | ssl_warning
  deriving Repr, DecidableEq

/-- Model of `MonitoringSystem.recently_alerted_ssl` (main.py lines 114-117): the
simplified implementation always answers false. -/
def recently_alerted_ssl (_site_name : String) : Bool := false

/-- The transition half of `check_state_change` (main.py lines 91-105):
when the site's stored history (newest-first, its head being the
just-logged current result) has at least two entries, compare the entry at
index 1 - the previous status - with the current one. -/
def transitionAlerts (current : CheckResult) (history : List CheckResult) :
    List AlertType :=
  match history with
  | _ :: prev :: _ =>
    if prev.is_up = true ∧ current.is_up = false then [AlertType.down]
    else if prev.is_up = false ∧ current.is_up = true then
      [AlertType.recovered]
    else []
  | _ => []

/-- The SSL half of `check_state_change` (main.py lines 107-112): warn when
the current result carries an `ssl_days_remaining` of at most 30, the site
is currently up, and no recent SSL alert is recorded (which
`recently_alerted_ssl` never reports). -/
def sslAlert (current : CheckResult) : List AlertType :=
  match current.ssl_days_remaining with
  | some d =>
    if d ≤ 30 ∧ current.is_up = true ∧
        recently_alerted_ssl current.name = false then
      [AlertType.ssl_warning]
    else []
  | none => []

/-- Model of `MonitoringSystem.check_state_change` (main.py lines 85-112): the
alerts emitted for one evaluation pass, in the order the source sends
them. -/
def check_state_change (current : CheckResult) (history : List CheckResult) :
    List AlertType :=
  transitionAlerts current history ++ sslAlert current

/-- Python truthiness of an `os.getenv` result as tested by
`all([...])` in notifications.py: unset (`None`) and the empty string are
falsy. -/
def truthy : Option String → Bool
  | none => false
  | some s => !s.isEmpty

/-- Python's str(value) for the `status_code` entry of the result dict: the key is
always present, so a missing code prints as Python's `None`. -/
def optNatStr : Option Nat → String
  | some n => toString n
  | none => "None"

/-- Python's str(value) for the `response_time` entry; `toString` on the exact
rational stands for Python's float repr. -/
def optRatStr : Option Rat → String
  | some t => toString t
  | none => "None"

/-- Python's str(value) for the `ssl_days_remaining` entry. -/
def optIntStr : Option Int → String
  | some d => toString d
  | none => "None"

/-- Python's str(value) for the `error_message` entry: the key is always present
in results built by `check_site`, so the `'Nenhum'` default of
`dict.get` never applies and `None` prints as `"None"`. -/
def optErrStr : Option String → String
  | some s => s
  | none => "None"

/-- Model of `NotificationManager._format_message` (notifications.py lines 61-93),
after the final `.strip()` of the f-string template. -/
def format_message (site_result : CheckResult) (alert_type : String) :
    String :=
  let status :=
    if alert_type = "down" then "INDISPONÍVEL"
    else if alert_type = "recovered" then "RECUPERADO"
    else if alert_type = "ssl_warning" then "AVISO SSL"
    else "INFORMAÇÃO"
  let emoji :=
    if alert_type = "down" then "🔴"
    else if alert_type = "recovered" then "🟢"
    else if alert_type = "ssl_warning" then "⚠️"
    else "ℹ️"
  emoji ++ " ALERTA DE MONITORAMENTO\n\nSite: " ++ site_result.name
    ++ "\nURL: " ++ site_result.url
    ++ "\nStatus: " ++ status
    ++ "\nTimestamp: " ++ site_result.timestamp
    ++ "\n\nDetalhes:\n- Status Code: " ++ optNatStr site_result.status_code
    ++ "\n- Tempo de Resposta: " ++ optRatStr site_result.response_time
    ++ "ms\n- SSL (dias restantes): "
    ++ optIntStr site_result.ssl_days_remaining
    ++ "\n- Erro: " ++ optErrStr site_result.error_message

/-- Modelled from the spec: the rendering the spec's §4.3 describes — same
template, but with the status label mapped `down`→"UNAVAILABLE",
`recovered`→"RECOVERED", `ssl_warning`→"SSL WARNING" and every absent
optional field rendered as the explicit placeholder "N/A". Written to be
compared against `format_message`, which is translated from the source. -/
def format_message_spec (site_result : CheckResult) (alert_type : String) :
    String :=
  let status :=
    if alert_type = "down" then "UNAVAILABLE"
    else if alert_type = "recovered" then "RECOVERED"
    else if alert_type = "ssl_warning" then "SSL WARNING"
    else "INFO"
  let emoji :=
    if alert_type = "down" then "🔴"
    else if alert_type = "recovered" then "🟢"
    else if alert_type = "ssl_warning" then "⚠️"
    else "ℹ️"
  emoji ++ " ALERTA DE MONITORAMENTO\n\nSite: " ++ site_result.name
    ++ "\nURL: " ++ site_result.url
    ++ "\nStatus: " ++ status
    ++ "\nTimestamp: " ++ site_result.timestamp
    ++ "\n\nDetalhes:\n- Status Code: "
    ++ (site_result.status_code.map toString).getD "N/A"
    ++ "\n- Tempo de Resposta: "
    ++ (site_result.response_time.map toString).getD "N/A"
    ++ "ms\n- SSL (dias restantes): "
    ++ (site_result.ssl_days_remaining.map toString).getD "N/A"
    ++ "\n- Erro: " ++ (site_result.error_message.getD "N/A")

/-- The email credentials read from the environment in
`NotificationManager.__init__` (notifications.py lines 23-28); `smtp_port`
always has a value thanks to its default. -/
structure EmailConfig where
  smtp_server : Option String
  smtp_port : Nat
  email_user : Option String
  email_password : Option String
  deriving Repr, DecidableEq

/-- The Telegram credentials (notifications.py lines 30-33). -/
structure TelegramConfig where
  bot_token : Option String
  chat_id : Option String
  deriving Repr, DecidableEq

/-- The Twilio/WhatsApp credentials (notifications.py lines 35-40). -/
structure TwilioConfig where
  account_sid : Option String
  auth_token : Option String
  whatsapp_from : Option String
  whatsapp_to : Option String
  deriving Repr, DecidableEq

/-- The effectful surroundings of one `send_alert` call: whether the
optional client libraries imported (`TELEGRAM_AVAILABLE`,
`TWILIO_AVAILABLE`), and the outcome each channel's actual delivery call
would have (`Except.error` stands for the exception the source catches and
logs). -/
structure NotifyEnv where
  telegram_available : Bool
  twilio_available : Bool
  email_send : Except String Unit
  telegram_send : Except String Unit
  whatsapp_send : Except String Unit

/-- Model of `NotificationManager._send_email` (notifications.py lines 95-119):
false when any required credential is missing, false when the SMTP
conversation raises (caught), true on success. -/
def send_email (cfg : EmailConfig) (env : NotifyEnv) : Bool :=
  if truthy cfg.smtp_server && truthy cfg.email_user
      && truthy cfg.email_password then
    match env.email_send with
    | Except.ok _ => true
    | Except.error _ => false
  else false

/-- Model of `NotificationManager._send_telegram` (notifications.py
lines 121-142). -/
def send_telegram (cfg : TelegramConfig) (env : NotifyEnv) : Bool :=
  if env.telegram_available then
    if truthy cfg.bot_token && truthy cfg.chat_id then
      match env.telegram_send with
      | Except.ok _ => true
      | Except.error _ => false
    else false
  else false

/-- Model of `NotificationManager._send_whatsapp` (notifications.py
lines 144-167). -/
def send_whatsapp (cfg : TwilioConfig) (env : NotifyEnv) : Bool :=
  if env.twilio_available then
    if truthy cfg.account_sid && truthy cfg.auth_token
        && truthy cfg.whatsapp_from && truthy cfg.whatsapp_to then
      match env.whatsapp_send with
      | Except.ok _ => true
      | Except.error _ => false
    else false
  else false

/-- Model of `NotificationManager.send_alert` (notifications.py lines 42-59): try
the three channels in order, collecting the names of those that report
success. -/
def send_alert (ec : EmailConfig) (tc : TelegramConfig) (wc : TwilioConfig)
    (env : NotifyEnv) (site_result : CheckResult) (alert_type : String) :
    List String :=
  let _message := format_message site_result alert_type
  let sent_via : List String := []
  let sent_via := if send_email ec env then sent_via ++ ["email"] else sent_via
  let sent_via :=
    if send_telegram tc env then sent_via ++ ["telegram"] else sent_via
  let sent_via :=
    if send_whatsapp wc env then sent_via ++ ["whatsapp"] else sent_via
  sent_via

/-- Model of `MonitoringSystem.check_all_sites` (main.py lines 56-83): iterate the
configured sites in order; each site's probe-persist-detect-notify body is
the collaborator `pipeline`, whose `Except.error` stands for an unexpected
exception that the per-site `except` catches and logs. Returns, per site in
order, its name and the error caught for it (if any). -/
def check_all_sites (sites : List SiteConfig)
    (pipeline : SiteConfig → Except String Unit) :
    List (String × Option String) :=
  match sites with
  | [] => []
  | s :: rest =>
    let outcome :=
      match pipeline s with
      | Except.ok _ => (s.name, (none : Option String))
      | Except.error e => (s.name, some e)
    outcome :: check_all_sites rest pipeline

/-- Truthiness of `row['response_time']` in the list comprehension of
`calculate_uptime_percentage` (reports.py line 140): `None` and zero are
falsy. -/
def rtTruthy : Option Rat → Option Rat
  | none => none
  | some t => if t = 0 then none else some t

/-- Model of `ReportGenerator.calculate_uptime_percentage` (reports.py
lines 128-149), as a function of the site's stored history; the returned
dict is an association list in the source's insertion order, with counts
embedded as rationals. -/
def calculate_uptime_percentage (data : List CheckResult) :
    List (String × Rat) :=
  if data.isEmpty then
    [("uptime_percentage", 0), ("total_checks", 0), ("successful_checks", 0)]
  else
    let total_checks : Nat := data.length
    let successful_checks : Nat := (data.filter (fun row => row.is_up)).length
    let uptime_percentage : Rat :=
      ((successful_checks : Rat) / (total_checks : Rat)) * 100
    let response_times : List Rat :=
      data.filterMap (fun row => rtTruthy row.response_time)
    let avg_response_time : Rat :=
      if response_times.isEmpty then 0
      else response_times.sum / (response_times.length : Rat)
    [("uptime_percentage", round2 uptime_percentage),
     ("total_checks", (total_checks : Rat)),
     ("successful_checks", (successful_checks : Rat)),
     ("failed_checks", ((total_checks - successful_checks : Nat) : Rat)),
     ("avg_response_time", round2 avg_response_time)]

/-- The site of the spec's end-to-end scenario, used as a concrete
fixture. -/
def sampleSite : SiteConfig :=
  { name := "Example"
    url := "https://example.test"
    expected_status := some 200
    max_response_time := some 2000
    check_ssl := false }

/-- A concrete healthy check result used as a fixture. -/
def sampleResult : CheckResult :=
  { name := "Example"
    url := "https://example.test"
    is_up := true
    status_code := some 200
    response_time := some 150
    ssl_days_remaining := none
    error_message := none
    timestamp := "01/01/2025 00:00:00" }

/-- Transport oracle: the first attempt fails at transport level, every
later one receives a fast 200. -/
def attFailThenOk : Nat → AttemptOutcome := fun n =>
  if n = 0 then AttemptOutcome.transportError "connection refused"
  else AttemptOutcome.response 200 100 none

/-- Transport oracle: every attempt fails at transport level. -/
def attAllFail : Nat → AttemptOutcome := fun _ =>
  AttemptOutcome.transportError "boom"

/-- Transport oracle: every attempt receives a fast 200. -/
def attOk : Nat → AttemptOutcome := fun _ =>
  AttemptOutcome.response 200 150 none

/-- Transport oracle: two transport failures, then a fast 200. -/
def attTwoFailThenOk : Nat → AttemptOutcome := fun n =>
  if n ≤ 1 then AttemptOutcome.transportError "boom"
  else AttemptOutcome.response 200 150 none

/-- A three-entry stored history: response times 150, null, and zero. -/
def sampleHistory : List CheckResult :=
  [sampleResult,
   { sampleResult with is_up := false, response_time := none },
   { sampleResult with response_time := some 0 }]

/-- Email credentials entirely absent. -/
def emailNone : EmailConfig :=
  { smtp_server := none, smtp_port := 587, email_user := none
    email_password := none }

/-- Complete email credentials. -/
def emailFull : EmailConfig :=
  { smtp_server := some "smtp.test", smtp_port := 587
    email_user := some "user", email_password := some "pass" }

/-- Complete Telegram credentials. -/
def telegramFull : TelegramConfig :=
  { bot_token := some "token", chat_id := some "chat" }

/-- Telegram credentials entirely absent. -/
def telegramNone : TelegramConfig := { bot_token := none, chat_id := none }

/-- Twilio credentials entirely absent. -/
def twilioNone : TwilioConfig :=
  { account_sid := none, auth_token := none, whatsapp_from := none
    whatsapp_to := none }

/-- Environment where the SMTP conversation raises while the other
channels' deliveries would succeed. -/
def envEmailThrows : NotifyEnv :=
  { telegram_available := true
    twilio_available := true
    email_send := Except.error "boom"
    telegram_send := Except.ok ()
    whatsapp_send := Except.ok () }

lemma sslAnnotate_is_up (cfg : SiteConfig) (d : Option Int) (r : CheckResult) :
    (sslAnnotate cfg d r).is_up = r.is_up := by
  unfold sslAnnotate
  split
  · cases d with
    | none => rfl
    | some v =>
      simp only
      split
      · split <;> rfl
      · rfl
  · rfl

lemma sslAnnotate_status_code (cfg : SiteConfig) (d : Option Int)
    (r : CheckResult) : (sslAnnotate cfg d r).status_code = r.status_code := by
  unfold sslAnnotate
  split
  · cases d with
    | none => rfl
    | some v =>
      simp only
      split
      · split <;> rfl
      · rfl
  · rfl

lemma sslAnnotate_response_time (cfg : SiteConfig) (d : Option Int)
    (r : CheckResult) :
    (sslAnnotate cfg d r).response_time = r.response_time := by
  unfold sslAnnotate
  split
  · cases d with
    | none => rfl
    | some v =>
      simp only
      split
      · split <;> rfl
      · rfl
  · rfl

lemma handleResponse_is_up (cfg : SiteConfig) (s : Nat) (t : Rat)
    (d : Option Int) (r : CheckResult) :
    (handleResponse cfg s t d r).is_up =
      if s = cfg.expected_status.getD 200 ∧ t ≤ cfg.max_response_time.getD 5000
      then true else r.is_up := by
  unfold handleResponse
  rw [sslAnnotate_is_up]
  split <;> rfl

lemma handleResponse_status_code (cfg : SiteConfig) (s : Nat) (t : Rat)
    (d : Option Int) (r : CheckResult) :
    (handleResponse cfg s t d r).status_code = some s := by
  unfold handleResponse
  rw [sslAnnotate_status_code]
  split <;> rfl

lemma handleResponse_response_time (cfg : SiteConfig) (s : Nat) (t : Rat)
    (d : Option Int) (r : CheckResult) :
    (handleResponse cfg s t d r).response_time = some t := by
  unfold handleResponse
  rw [sslAnnotate_response_time]
  split <;> rfl

lemma handleResponse_error_of_good_silent (cfg : SiteConfig) (s : Nat)
    (t : Rat) (d : Option Int) (r : CheckResult)
    (hs : s = cfg.expected_status.getD 200)
    (ht : t ≤ cfg.max_response_time.getD 5000)
    (hd : cfg.check_ssl = false ∨ ∀ v, d = some v → 30 ≤ v) :
    (handleResponse cfg s t d r).error_message = r.error_message := by
  simp only [handleResponse]
  rw [if_pos ⟨hs, ht⟩]
  simp only [sslAnnotate]
  rcases hd with hd | hd
  · simp [hd]
  · cases d with
    | none => split <;> rfl
    | some v =>
      have h30 : ¬ v < 30 := by have := hd v rfl; omega
      split
      · simp only
        rw [if_neg h30]
      · rfl

lemma errUpdate (r : CheckResult) (a b : Option String) :
    ({ ({ r with error_message := a }) with error_message := b }
      : CheckResult) = { r with error_message := b } := rfl

lemma checkLoop_transport_step (cfg : SiteConfig)
    (att : Nat → AttemptOutcome) (i fuel : Nat) (r : CheckResult)
    (m : String) (h : att i = AttemptOutcome.transportError m) :
    checkLoop cfg att i (fuel + 1) r =
      ((checkLoop cfg att (i + 1) fuel { r with error_message := some m }).1,
       (checkLoop cfg att (i + 1) fuel
          { r with error_message := some m }).2 + 1) := by
  simp [checkLoop, h]

lemma checkLoop_response_step (cfg : SiteConfig)
    (att : Nat → AttemptOutcome) (i fuel : Nat) (r : CheckResult)
    (s : Nat) (t : Rat) (d : Option Int)
    (h : att i = AttemptOutcome.response s t d) :
    checkLoop cfg att i (fuel + 1) r = (handleResponse cfg s t d r, 1) := by
  simp [checkLoop, h]

lemma checkLoop_all_transport (cfg : SiteConfig) (att : Nat → AttemptOutcome)
    (msg : Nat → String) :
    ∀ fuel i r,
      (∀ j, j ≤ fuel → att (i + j) = AttemptOutcome.transportError (msg (i + j))) →
      checkLoop cfg att i (fuel + 1) r =
        ({ r with error_message := some (msg (i + fuel)) }, fuel + 1) := by
  intro fuel
  induction fuel with
  | zero =>
    intro i r h
    have h0 : att i = AttemptOutcome.transportError (msg i) := h 0 (le_refl 0)
    simp [checkLoop, h0]
  | succ f ih =>
    intro i r h
    have h0 : att i = AttemptOutcome.transportError (msg i) :=
      h 0 (Nat.zero_le _)
    have hrest : ∀ j, j ≤ f →
        att (i + 1 + j) = AttemptOutcome.transportError (msg (i + 1 + j)) := by
      intro j hj
      have harith : i + 1 + j = i + (j + 1) := by omega
      rw [harith]
      exact h (j + 1) (by omega)
    have hrec := ih (i + 1) { r with error_message := some (msg i) } hrest
    have harith2 : i + 1 + f = i + (f + 1) := by omega
    rw [harith2] at hrec
    rw [checkLoop_transport_step cfg att i (f + 1) r (msg i) h0, hrec]

lemma checkLoop_first_response (cfg : SiteConfig) (att : Nat → AttemptOutcome)
    (s : Nat) (t : Rat) (d : Option Int) :
    ∀ k fuel i r, k < fuel →
      (∀ j, j < k → ∃ m, att (i + j) = AttemptOutcome.transportError m) →
      att (i + k) = AttemptOutcome.response s t d →
      ∃ e, checkLoop cfg att i fuel r =
        (handleResponse cfg s t d { r with error_message := e }, k + 1) := by
  intro k
  induction k with
  | zero =>
    intro fuel i r hk _ hresp
    cases fuel with
    | zero => omega
    | succ f =>
      refine ⟨r.error_message, ?_⟩
      have h0 : att i = AttemptOutcome.response s t d := hresp
      simp [checkLoop, h0]
  | succ k ih =>
    intro fuel i r hk htrans hresp
    cases fuel with
    | zero => omega
    | succ f =>
      obtain ⟨m, hm⟩ := htrans 0 (Nat.succ_pos k)
      have hm' : att i = AttemptOutcome.transportError m := by
        simpa using hm
      have htrans' : ∀ j, j < k →
          ∃ m', att (i + 1 + j) = AttemptOutcome.transportError m' := by
        intro j hj
        have harith : i + 1 + j = i + (j + 1) := by omega
        rw [harith]
        exact htrans (j + 1) (by omega)
      have hresp' : att (i + 1 + k) = AttemptOutcome.response s t d := by
        have harith : i + 1 + k = i + (k + 1) := by omega
        rw [harith]
        exact hresp
      obtain ⟨e, he⟩ :=
        ih f (i + 1) { r with error_message := some m } (by omega) htrans' hresp'
      refine ⟨e, ?_⟩
      rw [checkLoop_transport_step cfg att i f r m hm', he, errUpdate]

lemma checkLoop_up_fields (cfg : SiteConfig) (att : Nat → AttemptOutcome) :
    ∀ fuel i r, r.is_up = false →
      (checkLoop cfg att i fuel r).1.is_up = true →
      (checkLoop cfg att i fuel r).1.status_code =
          some (cfg.expected_status.getD 200) ∧
        ∃ t, (checkLoop cfg att i fuel r).1.response_time = some t ∧
          t ≤ cfg.max_response_time.getD 5000 := by
  intro fuel
  induction fuel with
  | zero =>
    intro i r hr hup
    have hup' : r.is_up = true := hup
    rw [hr] at hup'
    exact absurd hup' (by decide)
  | succ f ih =>
    intro i r hr hup
    cases hatt : att i with
    | transportError m =>
      rw [checkLoop_transport_step cfg att i f r m hatt] at hup ⊢
      exact ih (i + 1) { r with error_message := some m } hr hup
    | response s t d =>
      rw [checkLoop_response_step cfg att i f r s t d hatt] at hup ⊢
      by_cases hgood :
        s = cfg.expected_status.getD 200 ∧ t ≤ cfg.max_response_time.getD 5000
      · refine ⟨?_, t, ?_, hgood.2⟩
        · rw [← hgood.1]
          exact handleResponse_status_code cfg s t d r
        · exact handleResponse_response_time cfg s t d r
      · have hup' : (handleResponse cfg s t d r).is_up = true := hup
        rw [handleResponse_is_up, if_neg hgood, hr] at hup'
        exact absurd hup' (by decide)

lemma checkLoop_is_up_ignores_ssl (cfg : SiteConfig) (b : Bool)
    (att : Nat → AttemptOutcome) :
    ∀ fuel i r,
      (checkLoop { cfg with check_ssl := b } att i fuel r).1.is_up =
        (checkLoop cfg att i fuel r).1.is_up := by
  intro fuel
  induction fuel with
  | zero => intro i r; rfl
  | succ f ih =>
    intro i r
    cases hatt : att i with
    | transportError m =>
      rw [checkLoop_transport_step { cfg with check_ssl := b } att i f r m hatt,
        checkLoop_transport_step cfg att i f r m hatt]
      exact ih (i + 1) { r with error_message := some m }
    | response s t d =>
      rw [checkLoop_response_step { cfg with check_ssl := b } att i f r s t d hatt,
        checkLoop_response_step cfg att i f r s t d hatt]
      exact (handleResponse_is_up { cfg with check_ssl := b } s t d r).trans
        (handleResponse_is_up cfg s t d r).symm

/-- C1, counterexample: a probe whose first attempt fails at transport level
and whose second attempt receives a 200 within the latency budget satisfies
the claim's premise, yet `check_site` leaves `error_message` holding the
first attempt's transport error instead of `None` - the retry loop never
resets the field recorded by an earlier failed attempt. -/
theorem c1_counterexample :
    attFailThenOk 0 = AttemptOutcome.transportError "connection refused" ∧
    attFailThenOk 1 = AttemptOutcome.response 200 100 none ∧
    200 = sampleSite.expected_status.getD 200 ∧
    (100 : Rat) ≤ sampleSite.max_response_time.getD 5000 ∧
    sampleSite.check_ssl = false ∧
    (check_site sampleSite 3 attFailThenOk "t").1.is_up = true ∧
    (check_site sampleSite 3 attFailThenOk "t").1.error_message =
      some "connection refused" := by
  decide

/-- C1, amended: if the first received HTTP response (after any number of
transport failures, within the retry budget) matches the expected status
within the latency budget, `check_site` reports `is_up = true`; and
`error_message = None` holds provided the good response arrives on the very
first attempt and the SSL sub-step does not report a certificate expiring
in under 30 days. -/
theorem c1_good_response_up (cfg : SiteConfig) (rc : Nat)
    (att : Nat → AttemptOutcome) (now : String) (i s : Nat) (t : Rat)
    (d : Option Int) (hi : i < rc)
    (htr : ∀ j, j < i → ∃ m, att j = AttemptOutcome.transportError m)
    (hresp : att i = AttemptOutcome.response s t d)
    (hs : s = cfg.expected_status.getD 200)
    (ht : t ≤ cfg.max_response_time.getD 5000) :
    (check_site cfg rc att now).1.is_up = true ∧
    (i = 0 → (cfg.check_ssl = false ∨ ∀ v, d = some v → 30 ≤ v) →
      (check_site cfg rc att now).1.error_message = none) := by
  have htr0 : ∀ j, j < i → ∃ m, att (0 + j) = AttemptOutcome.transportError m := by
    intro j hj
    rw [Nat.zero_add]
    exact htr j hj
  have hresp0 : att (0 + i) = AttemptOutcome.response s t d := by
    rw [Nat.zero_add]
    exact hresp
  obtain ⟨e, he⟩ := checkLoop_first_response cfg att s t d i rc 0
    (initResult cfg now) hi htr0 hresp0
  constructor
  · show (checkLoop cfg att 0 rc (initResult cfg now)).1.is_up = true
    rw [he]
    have hup := handleResponse_is_up cfg s t d
      { initResult cfg now with error_message := e }
    rw [if_pos ⟨hs, ht⟩] at hup
    exact hup
  · intro h0 hssl
    subst h0
    cases rc with
    | zero => omega
    | succ f =>
      show (checkLoop cfg att 0 (f + 1) (initResult cfg now)).1.error_message
        = none
      rw [checkLoop_response_step cfg att 0 f (initResult cfg now) s t d hresp]
      exact handleResponse_error_of_good_silent cfg s t d (initResult cfg now)
        hs ht hssl

/-- C1, witness for the amended theorem at concrete inputs. -/
theorem c1_witness :
    (check_site sampleSite 3 attFailThenOk "t").1.is_up = true ∧
    (check_site sampleSite 3 attOk "t").1.error_message = none := by
  constructor
  · exact (c1_good_response_up sampleSite 3 attFailThenOk "t" 1 200 100 none
      (by decide)
      (by
        intro j hj
        have hj0 : j = 0 := by omega
        subst hj0
        exact ⟨"connection refused", rfl⟩)
      rfl rfl (by decide)).1
  · exact (c1_good_response_up sampleSite 3 attOk "t" 0 200 150 none
      (by decide) (by intro j hj; exact absurd hj (by omega)) rfl rfl
      (by decide)).2 rfl (Or.inl rfl)

/-- C2: whenever `check_site` reports `is_up = true`, the recorded status
code is the site's expected status and the recorded response time is within
the configured maximum; the SSL sub-step never changes `is_up` (it only
annotates), and toggling `check_ssl` leaves `is_up` unchanged. -/
theorem c2_up_invariant (cfg : SiteConfig) (rc : Nat)
    (att : Nat → AttemptOutcome) (now : String) (b : Bool) :
    ((check_site cfg rc att now).1.is_up = true →
      (check_site cfg rc att now).1.status_code =
          some (cfg.expected_status.getD 200) ∧
        ∃ t, (check_site cfg rc att now).1.response_time = some t ∧
          t ≤ cfg.max_response_time.getD 5000) ∧
    (∀ d r, (sslAnnotate cfg d r).is_up = r.is_up) ∧
    (check_site { cfg with check_ssl := b } rc att now).1.is_up =
      (check_site cfg rc att now).1.is_up := by
  refine ⟨?_, sslAnnotate_is_up cfg, ?_⟩
  · exact checkLoop_up_fields cfg att rc 0 (initResult cfg now) rfl
  · exact checkLoop_is_up_ignores_ssl cfg b att rc 0 (initResult cfg now)

/-- C2, witness at concrete inputs. -/
theorem c2_witness :
    (check_site sampleSite 1 attOk "t").1.status_code =
      some (sampleSite.expected_status.getD 200) ∧
    (check_site { sampleSite with check_ssl := true } 1 attOk "t").1.is_up =
      (check_site sampleSite 1 attOk "t").1.is_up := by
  refine ⟨?_, (c2_up_invariant sampleSite 1 attOk "t" true).2.2⟩
  exact ((c2_up_invariant sampleSite 1 attOk "t" true).1 (by decide)).1

lemma down_not_mem_sslAlert (current : CheckResult) :
    AlertType.down ∉ sslAlert current := by
  unfold sslAlert
  cases current.ssl_days_remaining with
  | none => simp
  | some d => split <;> simp

lemma recovered_not_mem_sslAlert (current : CheckResult) :
    AlertType.recovered ∉ sslAlert current := by
  unfold sslAlert
  cases current.ssl_days_remaining with
  | none => simp
  | some d => split <;> simp

lemma ssl_warning_not_mem_transitionAlerts (current : CheckResult)
    (history : List CheckResult) :
    AlertType.ssl_warning ∉ transitionAlerts current history := by
  cases history with
  | nil => simp [transitionAlerts]
  | cons a as =>
    cases as with
    | nil => simp [transitionAlerts]
    | cons b bs =>
      simp only [transitionAlerts]
      split_ifs <;> simp

/-- C3: with at least two stored results, the detector fires `down` exactly
when the previous result was up and the current one is down, fires
`recovered` exactly when the previous was down and the current is up, and
with fewer than two stored results it fires no transition alert at all. -/
theorem c3_transition_detection (current h0 prev : CheckResult)
    (rest : List CheckResult) :
    (AlertType.down ∈ check_state_change current (h0 :: prev :: rest) ↔
      prev.is_up = true ∧ current.is_up = false) ∧
    (AlertType.recovered ∈ check_state_change current (h0 :: prev :: rest) ↔
      prev.is_up = false ∧ current.is_up = true) ∧
    ∀ short : List CheckResult, short.length < 2 →
      AlertType.down ∉ check_state_change current short ∧
      AlertType.recovered ∉ check_state_change current short := by
  have hd := down_not_mem_sslAlert current
  have hr2 := recovered_not_mem_sslAlert current
  refine ⟨?_, ?_, ?_⟩
  · cases hcu : current.is_up <;> cases hpu : prev.is_up <;>
      simp [check_state_change, transitionAlerts, hcu, hpu, hd, hr2]
  · cases hcu : current.is_up <;> cases hpu : prev.is_up <;>
      simp [check_state_change, transitionAlerts, hcu, hpu, hd, hr2]
  · intro short hlen
    cases short with
    | nil => simp [check_state_change, transitionAlerts, hd, hr2]
    | cons x xs =>
      cases xs with
      | nil => simp [check_state_change, transitionAlerts, hd, hr2]
      | cons y ys =>
        exact absurd hlen (by simp)

/-- C3, witness at concrete inputs: an up→down pair fires `down`, a
single-entry history fires no transition alert. -/
theorem c3_witness :
    AlertType.down ∈
      check_state_change { sampleResult with is_up := false }
        [{ sampleResult with is_up := false }, sampleResult] ∧
    AlertType.down ∉ check_state_change sampleResult [sampleResult] := by
  constructor
  · exact (c3_transition_detection { sampleResult with is_up := false }
      { sampleResult with is_up := false } sampleResult []).1.mpr ⟨rfl, rfl⟩
  · exact ((c3_transition_detection sampleResult sampleResult sampleResult
      []).2.2 [sampleResult] (by decide)).1

/-- C4, counterexample: a result that is up with `ssl_days_remaining = -1`
(an already-expired certificate) makes the detector fire `ssl_warning`,
although the claim's condition `0 <= ssl_days_remaining <= 30` is false -
the source checks only the upper bound. -/
theorem c4_counterexample :
    AlertType.ssl_warning ∈
      check_state_change { sampleResult with ssl_days_remaining := some (-1) }
        [] ∧
    ¬ (0 ≤ (-1 : Int)) := by
  decide

/-- C4, amended: an `ssl_warning` fires iff the current result is up and
carries an `ssl_days_remaining` value of at most 30 (no lower bound); in
particular none fires while the site is down. -/
theorem c4_ssl_warning_iff (current : CheckResult)
    (history : List CheckResult) :
    AlertType.ssl_warning ∈ check_state_change current history ↔
      current.is_up = true ∧
        ∃ d, current.ssl_days_remaining = some d ∧ d ≤ 30 := by
  have hw := ssl_warning_not_mem_transitionAlerts current history
  simp only [check_state_change, List.mem_append]
  constructor
  · rintro (h | h)
    · exact absurd h hw
    · cases hs : current.ssl_days_remaining with
      | none =>
        simp only [sslAlert, hs] at h
        simp at h
      | some d =>
        simp only [sslAlert, hs] at h
        split_ifs at h with hc
        · exact ⟨hc.2.1, d, rfl, hc.1⟩
        · simp at h
  · rintro ⟨hup, d, hd, h30⟩
    right
    simp only [sslAlert, hd]
    rw [if_pos ⟨h30, hup, rfl⟩]
    simp

/-- C4, witness for the amended theorem at a concrete input. -/
theorem c4_witness :
    AlertType.ssl_warning ∈
      check_state_change { sampleResult with ssl_days_remaining := some 10 }
        [] :=
  (c4_ssl_warning_iff { sampleResult with ssl_days_remaining := some 10 }
    []).mpr ⟨rfl, 10, rfl, by decide⟩

/-- C5, counterexample: on a result whose optional fields are all absent,
the rendered message differs from the spec's template - the source labels
the alert "INDISPONÍVEL" (not "UNAVAILABLE") and prints absent fields as
Python's `None` (not "N/A"), because the result dict always carries the
keys so the `dict.get` fallbacks never apply. -/
theorem c5_counterexample :
    format_message
        { sampleResult with
          status_code := none
          response_time := none
          error_message := none } "down" ≠
      format_message_spec
        { sampleResult with
          status_code := none
          response_time := none
          error_message := none } "down" := by
  decide

/-- C5, amended: message rendering is the pure function `format_message` of
the result and the alert kind, whose template labels `down` as
"INDISPONÍVEL", `recovered` as "RECUPERADO" and `ssl_warning` as
"AVISO SSL", and renders each absent optional field as the string "None"
(never "N/A"). -/
theorem c5_rendering (r : CheckResult) (k : String) :
    format_message r k =
      (if k = "down" then "🔴"
        else if k = "recovered" then "🟢"
        else if k = "ssl_warning" then "⚠️" else "ℹ️")
      ++ " ALERTA DE MONITORAMENTO\n\nSite: " ++ r.name
      ++ "\nURL: " ++ r.url
      ++ "\nStatus: "
      ++ (if k = "down" then "INDISPONÍVEL"
          else if k = "recovered" then "RECUPERADO"
          else if k = "ssl_warning" then "AVISO SSL" else "INFORMAÇÃO")
      ++ "\nTimestamp: " ++ r.timestamp
      ++ "\n\nDetalhes:\n- Status Code: "
      ++ (match r.status_code with
          | some n => toString n
          | none => "None")
      ++ "\n- Tempo de Resposta: "
      ++ (match r.response_time with
          | some t => toString t
          | none => "None")
      ++ "ms\n- SSL (dias restantes): "
      ++ (match r.ssl_days_remaining with
          | some d => toString d
          | none => "None")
      ++ "\n- Erro: "
      ++ (match r.error_message with
          | some m => m
          | none => "None") := by
  obtain ⟨nm, u, up, sc, rt, sd, em, ts⟩ := r
  cases sc <;> cases rt <;> cases sd <;> cases em <;> rfl

/-- C6: when every attempt up to the retry budget fails at transport level,
`check_site` issues exactly `retry_count` attempts and returns
`is_up = false`, `status_code = None`, `response_time = None`, with
`error_message` holding the last recorded transport error; the failure is
returned as data, never propagated. -/
theorem c6_all_transport_down (cfg : SiteConfig) (rc : Nat)
    (att : Nat → AttemptOutcome) (msg : Nat → String) (now : String)
    (hrc : 0 < rc)
    (h : ∀ j, j < rc → att j = AttemptOutcome.transportError (msg j)) :
    (check_site cfg rc att now).2 = rc ∧
    (check_site cfg rc att now).1.is_up = false ∧
    (check_site cfg rc att now).1.status_code = none ∧
    (check_site cfg rc att now).1.response_time = none ∧
    (check_site cfg rc att now).1.error_message = some (msg (rc - 1)) := by
  obtain ⟨f, rfl⟩ : ∃ f, rc = f + 1 := ⟨rc - 1, by omega⟩
  have h' : ∀ j, j ≤ f →
      att (0 + j) = AttemptOutcome.transportError (msg (0 + j)) := by
    intro j hj
    rw [Nat.zero_add]
    exact h j (by omega)
  have heq := checkLoop_all_transport cfg att msg f 0 (initResult cfg now) h'
  rw [Nat.zero_add] at heq
  simp only [check_site]
  rw [heq]
  exact ⟨rfl, rfl, rfl, rfl, by simp⟩

/-- C6, witness at concrete inputs. -/
theorem c6_witness :
    (check_site sampleSite 2 attAllFail "t").2 = 2 ∧
    (check_site sampleSite 2 attAllFail "t").1.is_up = false ∧
    (check_site sampleSite 2 attAllFail "t").1.error_message = some "boom" := by
  have h := c6_all_transport_down sampleSite 2 attAllFail (fun _ => "boom") "t"
    (by decide) (by intro j hj; rfl)
  exact ⟨h.1, h.2.1, h.2.2.2.2⟩

/-- C7: the first attempt that receives an HTTP response ends the retry
loop - only transport errors retry - and the single returned result
carries that response's status code and elapsed time; with `retry_count=3`
and two transport failures before the response this means exactly three
attempts. -/
theorem c7_response_ends_retry (cfg : SiteConfig) (rc : Nat)
    (att : Nat → AttemptOutcome) (now : String) (i s : Nat) (t : Rat)
    (d : Option Int) (hi : i < rc)
    (htr : ∀ j, j < i → ∃ m, att j = AttemptOutcome.transportError m)
    (hresp : att i = AttemptOutcome.response s t d) :
    (check_site cfg rc att now).2 = i + 1 ∧
    (check_site cfg rc att now).1.status_code = some s ∧
    (check_site cfg rc att now).1.response_time = some t := by
  have htr0 : ∀ j, j < i →
      ∃ m, att (0 + j) = AttemptOutcome.transportError m := by
    intro j hj
    rw [Nat.zero_add]
    exact htr j hj
  have hresp0 : att (0 + i) = AttemptOutcome.response s t d := by
    rw [Nat.zero_add]
    exact hresp
  obtain ⟨e, he⟩ := checkLoop_first_response cfg att s t d i rc 0
    (initResult cfg now) hi htr0 hresp0
  simp only [check_site]
  rw [he]
  exact ⟨rfl, handleResponse_status_code cfg s t d _,
    handleResponse_response_time cfg s t d _⟩

/-- C7, witness: the spec's scenario - two transport failures, then a
received response; three attempts, result reflects the third. -/
theorem c7_witness :
    (check_site sampleSite 3 attTwoFailThenOk "t").2 = 3 ∧
    (check_site sampleSite 3 attTwoFailThenOk "t").1.status_code =
      some 200 ∧
    (check_site sampleSite 3 attTwoFailThenOk "t").1.response_time =
      some 150 := by
  have h := c7_response_ends_retry sampleSite 3 attTwoFailThenOk "t" 2 200
    150 none (by decide)
    (by
      intro j hj
      have hj' : j = 0 ∨ j = 1 := by omega
      rcases hj' with rfl | rfl <;> exact ⟨"boom", rfl⟩)
    rfl
  exact h

lemma send_email_false_of_unconfigured (ec : EmailConfig) (env : NotifyEnv)
    (h : (truthy ec.smtp_server && truthy ec.email_user
      && truthy ec.email_password) = false) : send_email ec env = false := by
  simp [send_email, h]

lemma send_telegram_false_of_unconfigured (tc : TelegramConfig)
    (env : NotifyEnv) (h : (truthy tc.bot_token && truthy tc.chat_id) = false) :
    send_telegram tc env = false := by
  simp [send_telegram, h]

lemma send_whatsapp_false_of_unconfigured (wc : TwilioConfig)
    (env : NotifyEnv)
    (h : (truthy wc.account_sid && truthy wc.auth_token
      && truthy wc.whatsapp_from && truthy wc.whatsapp_to) = false) :
    send_whatsapp wc env = false := by
  simp [send_whatsapp, h]

lemma send_email_false_of_throw (ec : EmailConfig) (env : NotifyEnv)
    (e : String) (h : env.email_send = Except.error e) :
    send_email ec env = false := by
  unfold send_email
  split
  · rw [h]
  · rfl

lemma mem_send_alert_iff (ec : EmailConfig) (tc : TelegramConfig)
    (wc : TwilioConfig) (env : NotifyEnv) (r : CheckResult) (k : String)
    (x : String) :
    x ∈ send_alert ec tc wc env r k ↔
      (x = "email" ∧ send_email ec env = true) ∨
      (x = "telegram" ∧ send_telegram tc env = true) ∨
      (x = "whatsapp" ∧ send_whatsapp wc env = true) := by
  cases hse : send_email ec env <;> cases hst : send_telegram tc env <;>
    cases hsw : send_whatsapp wc env <;>
      simp [send_alert, hse, hst, hsw]

/-- C8: a channel with missing credentials contributes nothing to the
success set; a channel whose delivery call throws is treated as not sent
while the remaining channels are still attempted and reported; and with no
channel configured at all the dispatch returns the empty set. (Dispatch is
a total function here: every channel exception of the source is caught and
becomes `Except.error` data.) -/
theorem c8_dispatch_isolation (ec : EmailConfig) (tc : TelegramConfig)
    (wc : TwilioConfig) (env : NotifyEnv) (r : CheckResult) (k : String) :
    ((truthy ec.smtp_server && truthy ec.email_user
        && truthy ec.email_password) = false →
      "email" ∉ send_alert ec tc wc env r k) ∧
    (∀ e, env.email_send = Except.error e →
      "email" ∉ send_alert ec tc wc env r k ∧
      ("telegram" ∈ send_alert ec tc wc env r k ↔
        send_telegram tc env = true) ∧
      ("whatsapp" ∈ send_alert ec tc wc env r k ↔
        send_whatsapp wc env = true)) ∧
    ((truthy ec.smtp_server && truthy ec.email_user
        && truthy ec.email_password) = false →
      (truthy tc.bot_token && truthy tc.chat_id) = false →
      (truthy wc.account_sid && truthy wc.auth_token
        && truthy wc.whatsapp_from && truthy wc.whatsapp_to) = false →
      send_alert ec tc wc env r k = []) := by
  refine ⟨?_, ?_, ?_⟩
  · intro hcfg
    rw [mem_send_alert_iff]
    rintro (⟨_, hc⟩ | ⟨hx, _⟩ | ⟨hx, _⟩)
    · rw [send_email_false_of_unconfigured ec env hcfg] at hc
      exact absurd hc (by decide)
    · exact absurd hx (by decide)
    · exact absurd hx (by decide)
  · intro e he
    have hse := send_email_false_of_throw ec env e he
    refine ⟨?_, ?_, ?_⟩
    · rw [mem_send_alert_iff]
      rintro (⟨_, hc⟩ | ⟨hx, _⟩ | ⟨hx, _⟩)
      · rw [hse] at hc
        exact absurd hc (by decide)
      · exact absurd hx (by decide)
      · exact absurd hx (by decide)
    · rw [mem_send_alert_iff]
      constructor
      · rintro (⟨hx, _⟩ | ⟨_, hc⟩ | ⟨hx, _⟩)
        · exact absurd hx (by decide)
        · exact hc
        · exact absurd hx (by decide)
      · intro hc
        exact Or.inr (Or.inl ⟨rfl, hc⟩)
    · rw [mem_send_alert_iff]
      constructor
      · rintro (⟨hx, _⟩ | ⟨hx, _⟩ | ⟨_, hc⟩)
        · exact absurd hx (by decide)
        · exact absurd hx (by decide)
        · exact hc
      · intro hc
        exact Or.inr (Or.inr ⟨rfl, hc⟩)
  · intro h1 h2 h3
    simp [send_alert, send_email_false_of_unconfigured ec env h1,
      send_telegram_false_of_unconfigured tc env h2,
      send_whatsapp_false_of_unconfigured wc env h3]

/-- C8, witness: with the SMTP conversation throwing and Telegram fully
configured, email is not in the success set while Telegram still is; with
nothing configured the success set is empty. -/
theorem c8_witness :
    "email" ∉
      send_alert emailFull telegramFull twilioNone envEmailThrows
        sampleResult "down" ∧
    "telegram" ∈
      send_alert emailFull telegramFull twilioNone envEmailThrows
        sampleResult "down" ∧
    send_alert emailNone telegramNone twilioNone envEmailThrows
      sampleResult "down" = [] := by
  have h := (c8_dispatch_isolation emailFull telegramFull twilioNone
    envEmailThrows sampleResult "down").2.1 "boom" rfl
  refine ⟨h.1, h.2.1.mpr (by decide), ?_⟩
  exact (c8_dispatch_isolation emailNone telegramNone twilioNone
    envEmailThrows sampleResult "down").2.2 rfl rfl rfl

/-- C9: one pass iterates every configured site in order; a per-site
pipeline error is caught at the per-site boundary and recorded, and every
site - including all sites after a failing one - is still processed, so
the pass's outcome is exactly the per-site map of pipeline outcomes. -/
theorem c9_per_site_isolation (sites : List SiteConfig)
    (pipeline : SiteConfig → Except String Unit) :
    check_all_sites sites pipeline =
      sites.map (fun s => (s.name,
        match pipeline s with
        | Except.ok _ => none
        | Except.error e => some e)) ∧
    (check_all_sites sites pipeline).map Prod.fst =
      sites.map SiteConfig.name := by
  have hmain : check_all_sites sites pipeline =
      sites.map (fun s => (s.name,
        match pipeline s with
        | Except.ok _ => none
        | Except.error e => some e)) := by
    induction sites with
    | nil => rfl
    | cons s rest ih =>
      cases hp : pipeline s with
      | ok u => simp [check_all_sites, hp, ih]
      | error e => simp [check_all_sites, hp, ih]
  refine ⟨hmain, ?_⟩
  rw [hmain, List.map_map]
  rfl

/-- C10: with an empty history the statistics dict is exactly
`{uptime_percentage: 0, total_checks: 0, successful_checks: 0}`, lacking
the `avg_response_time` and `failed_checks` keys; with non-empty history,
`avg_response_time` averages exactly the entries whose `response_time` is
neither null nor zero. -/
theorem c10_uptime_stats (data : List CheckResult) :
    calculate_uptime_percentage [] =
      [("uptime_percentage", 0), ("total_checks", 0),
        ("successful_checks", 0)] ∧
    List.lookup "avg_response_time" (calculate_uptime_percentage []) =
      none ∧
    List.lookup "failed_checks" (calculate_uptime_percentage []) = none ∧
    (data ≠ [] →
      List.lookup "avg_response_time" (calculate_uptime_percentage data) =
        some (round2
          (if (data.filterMap fun row =>
                match row.response_time with
                | some t => if t = 0 then none else some t
                | none => none).isEmpty
           then 0
           else (data.filterMap fun row =>
                match row.response_time with
                | some t => if t = 0 then none else some t
                | none => none).sum /
              (((data.filterMap fun row =>
                match row.response_time with
                | some t => if t = 0 then none else some t
                | none => none).length : Nat) : Rat)))) := by
  refine ⟨rfl, rfl, rfl, ?_⟩
  intro hne
  have hemp : data.isEmpty = false := by
    cases data with
    | nil => exact absurd rfl hne
    | cons a as => rfl
  have hfun : (fun row : CheckResult =>
      match row.response_time with
      | some t => if t = 0 then none else some t
      | none => none) = fun row => rtTruthy row.response_time := by
    funext row
    cases row.response_time <;> rfl
  rw [hfun]
  unfold calculate_uptime_percentage
  rw [hemp]
  rfl

/-- C10, witness: the non-empty-history conclusion instantiated at a
three-entry history whose `response_time`s are 150, null and zero. -/
theorem c10_witness :
    sampleHistory ≠ [] ∧
    List.lookup "avg_response_time"
        (calculate_uptime_percentage sampleHistory) =
      some (round2
        (if (sampleHistory.filterMap fun row =>
              match row.response_time with
              | some t => if t = 0 then none else some t
              | none => none).isEmpty
         then 0
         else (sampleHistory.filterMap fun row =>
              match row.response_time with
              | some t => if t = 0 then none else some t
              | none => none).sum /
            (((sampleHistory.filterMap fun row =>
              match row.response_time with
              | some t => if t = 0 then none else some t
              | none => none).length : Nat) : Rat))) :=
  ⟨by decide, (c10_uptime_stats sampleHistory).2.2.2 (by decide)⟩

end Central
